import Mathlib

/-
  Shallow embedding of pypubcontrol's core: ZmqPubControlClient
  (zmqpubcontrolclient.py) and ZmqSubMonitor (zmqsubmonitor.py).

  External collaborators (the zmq transport, the tnetstring wire format,
  the item export contract and the _ensure_utf8 normalization utility)
  are modelled as parameters of the functions that call them; the logic
  embedded here is exactly the logic of the two source files.
-/

namespace PyPubControl

/-- A byte string (a Python string of raw bytes) modelled as a list of
byte values. -/
abbrev Bytes := List Nat

/-- The two zmq socket archetypes the client can create:
zmq.XPUB (broadcast) and zmq.PUSH (fire-and-forget). -/
inductive SocketType where
  | xpub
  | push
deriving DecidableEq, Repr

/-- A connected zmq socket, as the client observes it: its archetype
(socket_type) and the URI it was connected to. -/
structure Socket where
  socket_type : SocketType
  uri : String
deriving DecidableEq, Repr

/-- The resolved transport archetype of a client, derived from its
(optional) socket handle. -/
inductive Archetype where
  | noSock
  | broadcast
  | push
deriving DecidableEq, Repr

/-- Derive the archetype from the socket handle: a null handle means no
archetype, an XPUB socket means broadcast, a PUSH socket means push. -/
def socketArchetype : Option Socket → Archetype
  | none => Archetype.noSock
  | some s =>
    match s.socket_type with
    | SocketType.xpub => Archetype.broadcast
    | SocketType.push => Archetype.push

/-- The endpoint configuration of a ZmqPubControlClient, as stored by
__init__: the control uri, the optional push and pub uris, and the
require_subscriptions and disable_pub flags. -/
structure Config where
  uri : String
  zmq_push_uri : Option String
  zmq_pub_uri : Option String
  require_subscriptions : Bool
  disable_pub : Bool
deriving DecidableEq, Repr

namespace ZmqPubControlClient

/-- Embedding of ZmqPubControlClient._verify_uri_config: raise a
ValueError if neither uri is set, or if require_subscriptions is set
while zmq_pub_uri is not. -/
def _verify_uri_config (c : Config) : Except String Unit :=
  if c.zmq_pub_uri = none ∧ c.zmq_push_uri = none then
    Except.error "either a zmq pub or push uri must be set to publish"
  else if c.zmq_pub_uri = none ∧ c.require_subscriptions = true then
    Except.error "zmq_pub_uri must be set if require_subscriptions is set to true"
  else
    Except.ok ()

/-- Embedding of ZmqPubControlClient.connect_zmq: verify the uri
configuration, then, only when the socket handle is still null, create
an XPUB socket if zmq_pub_uri is set, disable_pub is false and
(zmq_push_uri is unset or require_subscriptions is set), else a PUSH
socket if zmq_push_uri is set and require_subscriptions is false, else
leave the handle null. Takes the current handle, returns the new one. -/
def connect_zmq (c : Config) (sock : Option Socket) :
    Except String (Option Socket) :=
  match _verify_uri_config c with
  | Except.error e => Except.error e
  | Except.ok _ =>
    match sock with
    | some s => Except.ok (some s)
    | none =>
      if c.zmq_pub_uri ≠ none ∧ c.disable_pub = false ∧
          (c.zmq_push_uri = none ∨ c.require_subscriptions = true) then
        Except.ok (some { socket_type := SocketType.xpub,
                          uri := c.zmq_pub_uri.getD "" })
      else if c.zmq_push_uri ≠ none ∧ c.require_subscriptions = false then
        Except.ok (some { socket_type := SocketType.push,
                          uri := c.zmq_push_uri.getD "" })
      else
        Except.ok none

/-- The mapping-like structure returned by item.export, modelled as an
association list from field names to byte-string values. -/
abbrev Envelope := List (String × Bytes)

/-- Python dict assignment d[k] = v on the envelope: overwrite the value
in place if the key is present, else append the new binding at the end. -/
def dictInsert (k : String) (v : Bytes) (d : Envelope) : Envelope :=
  if d.any (fun p => p.1 == k) then
    d.map (fun p => if p.1 == k then (k, v) else p)
  else
    d ++ [(k, v)]

/-- Python dict lookup d[k] on the envelope. -/
def dictLookup (k : String) (d : Envelope) : Option Bytes :=
  (d.find? (fun p => p.1 == k)).map Prod.snd

/-- Embedding of ZmqPubControlClient._send_to_zmq, parameterized by the
external tnetstring serializer dumps. On a PUSH socket the channel field
is inserted into the content and a single frame holding the serialized
content is sent; otherwise (XPUB) a two-part message is sent: the raw
channel, then the serialized content. Returns the frames sent. -/
def _send_to_zmq (dumps : Envelope → Bytes) (sock : Socket)
    (content : Envelope) (channel : Bytes) : List Bytes :=
  if sock.socket_type = SocketType.push then
    [dumps (dictInsert "channel" channel content)]
  else
    [channel, dumps content]

/-- The observable outcome of one publish call: the socket handle after
the call, the frames sent on the socket, and the (success, errorMessage)
callback invocations made, in order. -/
structure PublishOutcome where
  sock : Option Socket
  frames : List Bytes
  callbacks : List (Bool × String)
deriving DecidableEq, Repr

/-- Embedding of ZmqPubControlClient.publish, parameterized by the
external collaborators: the item export operation, the _ensure_utf8
channel normalization and the tnetstring serializer. It connects
(lazily), then: with a null handle it is a no-op that still reports
success to the callback; otherwise it exports the item, normalizes the
channel and dispatches to _send_to_zmq. hasCallback records whether a
callback was supplied. -/
def publish (export2 : Bool → Bool → Envelope) (ensure_utf8 : String → Bytes)
    (dumps : Envelope → Bytes) (c : Config) (sock0 : Option Socket)
    (channel : String) (hasCallback : Bool) :
    Except String PublishOutcome :=
  match connect_zmq c sock0 with
  | Except.error e => Except.error e
  | Except.ok newSock =>
    match newSock with
    | none =>
      Except.ok { sock := none, frames := [],
                  callbacks := if hasCallback then [(true, "")] else [] }
    | some s =>
      let i := export2 true true
      let ch := ensure_utf8 channel
      Except.ok { sock := some s, frames := _send_to_zmq dumps s i ch,
                  callbacks := if hasCallback then [(true, "")] else [] }

/-- Embedding of ZmqPubControlClient.close: close the socket if one is
open and set the handle to null. -/
def close (_sock : Option Socket) : Option Socket := none

/-- The archetype a client resolves when connect_zmq runs with a null
socket handle: the archetype of the resulting handle, or the raised
configuration error. -/
def connectResultArchetype (c : Config) : Except String Archetype :=
  match connect_zmq c none with
  | Except.error e => Except.error e
  | Except.ok r => Except.ok (socketArchetype r)

/-- Whether a modelled call raised (in this model every raise is a
configuration ValueError). -/
def raisesError {α : Type} : Except String α → Bool
  | Except.error _ => true
  | Except.ok _ => false

end ZmqPubControlClient

namespace ZmqSubMonitor

/-- One frame-processing step of ZmqSubMonitor._monitor, on a received
message whose first byte is mtype and whose remaining bytes are item.
A 0x01 byte is a subscribe: when the item is not yet in the
subscriptions list, the callback fires with ("sub", item) and the item
is appended. A 0x00 byte is an unsubscribe: the item is removed if
present and the callback fires with ("unsub", item) unconditionally.
Returns the new subscriptions list and the callback invocations made. -/
def _monitor_step (subs : List Bytes) (mtype : Nat) (item : Bytes) :
    List Bytes × List (String × Bytes) :=
  if mtype = 1 then
    if item ∈ subs then
      (subs, [])
    else
      (subs ++ [item], [("sub", item)])
  else if mtype = 0 then
    (if item ∈ subs then subs.erase item else subs, [("unsub", item)])
  else
    (subs, [])

/-- Run the monitor loop over a finite sequence of received frames, each
given as its first byte paired with its remaining bytes, starting from
the given subscriptions list; returns the final subscriptions list and
all callback invocations in order. -/
def _monitor_run (subs : List Bytes) :
    List (Nat × Bytes) → List Bytes × List (String × Bytes)
  | [] => (subs, [])
  | f :: fs =>
    let r := _monitor_step subs f.1 f.2
    let rest := _monitor_run r.1 fs
    (rest.1, r.2 ++ rest.2)

/-- The marker byte of the most recent frame in the sequence whose
channel item equals c, if any (specification-side helper for the
subscription-set invariant). -/
def lastMarker (c : Bytes) : List (Nat × Bytes) → Option Nat
  | [] => none
  | f :: fs =>
    match lastMarker c fs with
    | some t => some t
    | none => if f.2 = c then some f.1 else none

end ZmqSubMonitor

/-! ## Theorems about the subscription monitor -/

open ZmqSubMonitor in
/-- One monitor step on a well-formed frame keeps the subscriptions list
free of duplicates. -/
theorem monitor_step_preserves_nodup (subs : List Bytes) (mtype : Nat)
    (item : Bytes) (h : subs.Nodup) :
    (ZmqSubMonitor._monitor_step subs mtype item).1.Nodup := by
  unfold ZmqSubMonitor._monitor_step
  by_cases h1 : mtype = 1
  · by_cases hm : item ∈ subs
    · simpa [h1, hm] using h
    · simp [h1, hm, List.nodup_append, h]
  · by_cases h0 : mtype = 0
    · by_cases hm : item ∈ subs
      · simpa [h1, h0, hm] using h.erase item
      · simpa [h1, h0, hm] using h
    · simpa [h1, h0] using h

open ZmqSubMonitor in
/-- Membership in the subscriptions list after one monitor step on a
well-formed frame: the channel of the frame is present exactly when the
frame was a subscribe; every other channel keeps its prior status. -/
theorem monitor_step_mem_iff (subs : List Bytes) (f : Nat × Bytes)
    (c : Bytes) (hnd : subs.Nodup) (hwf : f.1 = 0 ∨ f.1 = 1) :
    (c ∈ (ZmqSubMonitor._monitor_step subs f.1 f.2).1 ↔
      if f.2 = c then f.1 = 1 else c ∈ subs) := by
  unfold ZmqSubMonitor._monitor_step
  rcases hwf with h0 | h1
  · by_cases hm : f.2 ∈ subs
    · by_cases hc : f.2 = c
      · subst hc
        simp [h0, hm, hnd.not_mem_erase]
      · simp [h0, hm, hc, List.mem_erase_of_ne (fun hcc => hc hcc.symm)]
    · by_cases hc : f.2 = c
      · subst hc
        simp [h0, hm]
      · simp [h0, hm, hc]
  · by_cases hm : f.2 ∈ subs
    · by_cases hc : f.2 = c
      · subst hc
        simp [h1, hm]
      · simp [h1, hm, hc]
    · by_cases hc : f.2 = c
      · subst hc
        simp [h1, hm]
      · have hc2 : c ≠ f.2 := fun hcc => hc hcc.symm
        simp [h1, hm, hc, hc2]

open ZmqSubMonitor in
/-- Running the monitor over well-formed frames from a duplicate-free
subscriptions list keeps it duplicate-free, and a channel is in the
final list exactly when the most recent frame naming it was a subscribe
(or it was already present and no frame named it). -/
theorem monitor_run_invariant :
    ∀ (frames : List (Nat × Bytes)) (subs : List Bytes), subs.Nodup →
      (∀ f ∈ frames, f.1 = 0 ∨ f.1 = 1) →
      ((ZmqSubMonitor._monitor_run subs frames).1.Nodup ∧
       ∀ c, c ∈ (ZmqSubMonitor._monitor_run subs frames).1 ↔
         (match ZmqSubMonitor.lastMarker c frames with
          | some t => t = 1
          | none => c ∈ subs)) := by
  intro frames
  induction frames with
  | nil =>
    intro subs hnd _
    exact ⟨hnd, fun c => by simp [ZmqSubMonitor._monitor_run, ZmqSubMonitor.lastMarker]⟩
  | cons f fs ih =>
    intro subs hnd hwf
    have hwf_f : f.1 = 0 ∨ f.1 = 1 := hwf f (List.mem_cons_self f fs)
    have hwf_fs : ∀ g ∈ fs, g.1 = 0 ∨ g.1 = 1 :=
      fun g hg => hwf g (List.mem_cons_of_mem f hg)
    have hnd1 : (ZmqSubMonitor._monitor_step subs f.1 f.2).1.Nodup :=
      monitor_step_preserves_nodup subs f.1 f.2 hnd
    obtain ⟨ihnd, ihmem⟩ := ih (ZmqSubMonitor._monitor_step subs f.1 f.2).1 hnd1 hwf_fs
    refine ⟨by simpa [ZmqSubMonitor._monitor_run] using ihnd, fun c => ?_⟩
    have hstep := monitor_step_mem_iff subs f c hnd hwf_f
    have hrun : (ZmqSubMonitor._monitor_run subs (f :: fs)).1 =
        (ZmqSubMonitor._monitor_run (ZmqSubMonitor._monitor_step subs f.1 f.2).1 fs).1 := by
      simp [ZmqSubMonitor._monitor_run]
    rw [hrun, ihmem c]
    cases hlm : ZmqSubMonitor.lastMarker c fs with
    | some t => simp [ZmqSubMonitor.lastMarker, hlm]
    | none =>
      simp only [ZmqSubMonitor.lastMarker, hlm]
      rw [hstep]
      by_cases hc : f.2 = c
      · simp [hc]
      · simp [hc]

open ZmqSubMonitor in
/-- C7: a subscribe frame (first byte 0x01) with channel c fires the
("sub", c) callback and appends c exactly when c is absent from the
subscriptions list; when c is already present nothing happens, so the
same subscribe frame fed twice yields exactly one ("sub", c) callback. -/
theorem C7_subscribe_dedup (subs : List Bytes) (c : Bytes) :
    (c ∉ subs →
      ZmqSubMonitor._monitor_step subs 1 c = (subs ++ [c], [("sub", c)])) ∧
    (c ∈ subs → ZmqSubMonitor._monitor_step subs 1 c = (subs, [])) ∧
    (c ∉ subs →
      (ZmqSubMonitor._monitor_run subs [(1, c), (1, c)]).2 = [("sub", c)]) := by
  refine ⟨fun h => ?_, fun h => ?_, fun h => ?_⟩
  · simp [ZmqSubMonitor._monitor_step, h]
  · simp [ZmqSubMonitor._monitor_step, h]
  · simp [ZmqSubMonitor._monitor_run, ZmqSubMonitor._monitor_step, h]

open ZmqSubMonitor in
/-- C7 witness at a concrete input: channel [110] absent from the empty
list, so one step appends it with one ("sub", [110]) callback. -/
theorem C7_subscribe_dedup_witness :
    ([110] : Bytes) ∉ ([] : List Bytes) ∧
    ZmqSubMonitor._monitor_step [] 1 [110] = ([[110]], [("sub", [110])]) :=
  ⟨by decide, (C7_subscribe_dedup [] [110]).1 (by decide)⟩

open ZmqSubMonitor in
/-- C8: an unsubscribe frame (first byte 0x00) with channel c always
fires the ("unsub", c) callback, even with no prior subscribe; c is
removed when present (for a duplicate-free list it is absent after the
step) and every other channel keeps its membership; with c absent the
list is unchanged. -/
theorem C8_unsubscribe_unconditional (subs : List Bytes) (c : Bytes) :
    (ZmqSubMonitor._monitor_step subs 0 c).2 = [("unsub", c)] ∧
    (c ∉ subs → (ZmqSubMonitor._monitor_step subs 0 c).1 = subs) ∧
    (subs.Nodup → c ∉ (ZmqSubMonitor._monitor_step subs 0 c).1) ∧
    (∀ d, d ≠ c →
      (d ∈ (ZmqSubMonitor._monitor_step subs 0 c).1 ↔ d ∈ subs)) := by
  refine ⟨?_, fun h => ?_, fun hnd => ?_, fun d hd => ?_⟩
  · simp [ZmqSubMonitor._monitor_step]
  · simp [ZmqSubMonitor._monitor_step, h]
  · by_cases hm : c ∈ subs
    · simp [ZmqSubMonitor._monitor_step, hm, hnd.not_mem_erase]
    · simp [ZmqSubMonitor._monitor_step, hm]
  · by_cases hm : c ∈ subs
    · simp [ZmqSubMonitor._monitor_step, hm, List.mem_erase_of_ne hd]
    · simp [ZmqSubMonitor._monitor_step, hm]

open ZmqSubMonitor in
/-- C8 witness at a concrete input: an unsubscribe for [110] with no
prior subscribe leaves the empty list unchanged (hypotheses: [110] is
not in the list, the list has no duplicates). -/
theorem C8_unsubscribe_unconditional_witness :
    ([110] : Bytes) ∉ ([] : List Bytes) ∧ ([] : List Bytes).Nodup ∧
    (ZmqSubMonitor._monitor_step [] 0 [110]).1 = [] ∧
    ([110] : Bytes) ∉ (ZmqSubMonitor._monitor_step [] 0 [110]).1 :=
  ⟨by decide, by decide,
   (C8_unsubscribe_unconditional [] [110]).2.1 (by decide),
   (C8_unsubscribe_unconditional [] [110]).2.2.1 (by decide)⟩

open ZmqSubMonitor in
/-- C9: starting from the empty subscriptions list, after any finite
sequence of well-formed control frames (first byte 0x00 or 0x01) a
channel is in the list exactly when the most recent frame naming it was
a subscribe, and the list never holds a channel twice. -/
theorem C9_subscription_set_invariant (frames : List (Nat × Bytes))
    (hwf : ∀ f ∈ frames, f.1 = 0 ∨ f.1 = 1) :
    (∀ c, c ∈ (ZmqSubMonitor._monitor_run [] frames).1 ↔
      ZmqSubMonitor.lastMarker c frames = some 1) ∧
    (ZmqSubMonitor._monitor_run [] frames).1.Nodup := by
  obtain ⟨hnd, hmem⟩ := monitor_run_invariant frames [] (by simp) hwf
  refine ⟨fun c => ?_, hnd⟩
  rw [hmem c]
  cases h : ZmqSubMonitor.lastMarker c frames with
  | none => simp
  | some t => simp

open ZmqSubMonitor in
/-- C9 witness at a concrete input: frames subscribe [97], unsubscribe
[97], subscribe [97] are all well-formed, and afterwards [97] is in the
list because its most recent frame was a subscribe. -/
theorem C9_subscription_set_invariant_witness :
    (∀ f ∈ [(1, [97]), (0, [97]), (1, [97])], f.1 = 0 ∨ f.1 = 1) ∧
    (([97] : Bytes) ∈
        (ZmqSubMonitor._monitor_run [] [(1, [97]), (0, [97]), (1, [97])]).1 ↔
      ZmqSubMonitor.lastMarker [97] [(1, [97]), (0, [97]), (1, [97])] = some 1) :=
  ⟨by decide,
   (C9_subscription_set_invariant [(1, [97]), (0, [97]), (1, [97])] (by decide)).1 [97]⟩

open ZmqSubMonitor in
/-- C10: a control frame whose first byte is neither 0x00 nor 0x01 is
silently ignored: no callback fires and the subscriptions list is
unchanged. -/
theorem C10_unknown_marker_ignored (subs : List Bytes) (mtype : Nat)
    (item : Bytes) (h0 : mtype ≠ 0) (h1 : mtype ≠ 1) :
    ZmqSubMonitor._monitor_step subs mtype item = (subs, []) := by
  simp [ZmqSubMonitor._monitor_step, h0, h1]

open ZmqSubMonitor in
/-- C10 witness at a concrete input: marker byte 2 is neither 0 nor 1,
and the step leaves the list unchanged with no callback. -/
theorem C10_unknown_marker_ignored_witness :
    (2 ≠ 0) ∧ (2 ≠ 1) ∧
    ZmqSubMonitor._monitor_step [[110]] 2 [97] = ([[110]], []) :=
  ⟨by decide, by decide, C10_unknown_marker_ignored [[110]] 2 [97] (by decide) (by decide)⟩

/-! ## Theorems about the publish client -/

open ZmqPubControlClient in
/-- Looking up the channel key after the dict assignment that inserted
it returns the inserted value, whether the key was present before
(overwrite in place) or not (append at the end). -/
theorem dictLookup_dictInsert (k : String) (v : Bytes) (d : Envelope) :
    ZmqPubControlClient.dictLookup k (ZmqPubControlClient.dictInsert k v d) =
      some v := by
  have hmap : ∀ e : Envelope, e.any (fun p => p.1 == k) = true →
      (e.map (fun p => if p.1 == k then (k, v) else p)).find?
        (fun p => p.1 == k) = some (k, v) := by
    intro e he
    induction e with
    | nil => simp at he
    | cons p ps ih =>
      by_cases hp : p.1 == k
      · simp [List.find?, hp]
      · have hps : ps.any (fun q => q.1 == k) = true := by
          simpa [List.any_cons, hp] using he
        simpa [List.find?, hp] using ih hps
  have happ : ∀ e : Envelope, e.any (fun p => p.1 == k) = false →
      (e ++ [(k, v)]).find? (fun p => p.1 == k) = some (k, v) := by
    intro e he
    induction e with
    | nil => simp [List.find?]
    | cons p ps ih =>
      have hp : (p.1 == k) = false := by
        by_contra hcon
        simp [List.any_cons, eq_true_of_ne_false hcon] at he
      have hps : ps.any (fun q => q.1 == k) = false := by
        simpa [List.any_cons, hp] using he
      simpa [List.find?, hp] using ih hps
  unfold ZmqPubControlClient.dictInsert ZmqPubControlClient.dictLookup
  by_cases h : d.any (fun p => p.1 == k) = true
  · rw [if_pos h, hmap d h]
    rfl
  · rw [if_neg h, happ d (eq_false_of_ne_true h)]
    rfl

open ZmqPubControlClient in
/-- C1: with a valid uri configuration and a null socket handle,
connect_zmq resolves exactly one archetype with the source precedence:
Broadcast exactly when pubUri is set, disablePub is false and (pushUri
is unset or requireSubscriptions is true); otherwise Push exactly when
pushUri is set and requireSubscriptions is false; otherwise the handle
stays null. -/
theorem C1_connect_selects_exactly_one_archetype (c : Config)
    (hv : ZmqPubControlClient._verify_uri_config c = Except.ok ()) :
    (ZmqPubControlClient.connectResultArchetype c =
        Except.ok Archetype.broadcast ↔
      (c.zmq_pub_uri ≠ none ∧ c.disable_pub = false ∧
        (c.zmq_push_uri = none ∨ c.require_subscriptions = true))) ∧
    (ZmqPubControlClient.connectResultArchetype c = Except.ok Archetype.push ↔
      (¬(c.zmq_pub_uri ≠ none ∧ c.disable_pub = false ∧
          (c.zmq_push_uri = none ∨ c.require_subscriptions = true)) ∧
        c.zmq_push_uri ≠ none ∧ c.require_subscriptions = false)) ∧
    (ZmqPubControlClient.connectResultArchetype c =
        Except.ok Archetype.noSock ↔
      (¬(c.zmq_pub_uri ≠ none ∧ c.disable_pub = false ∧
          (c.zmq_push_uri = none ∨ c.require_subscriptions = true)) ∧
        ¬(c.zmq_push_uri ≠ none ∧ c.require_subscriptions = false))) ∧
    (ZmqPubControlClient.connectResultArchetype c =
        Except.ok Archetype.noSock →
      ZmqPubControlClient.connect_zmq c none = Except.ok none) := by
  by_cases hB : (c.zmq_pub_uri ≠ none ∧ c.disable_pub = false ∧
      (c.zmq_push_uri = none ∨ c.require_subscriptions = true))
  · simp [ZmqPubControlClient.connectResultArchetype,
      ZmqPubControlClient.connect_zmq, hv, hB, socketArchetype]
  · by_cases hP : (c.zmq_push_uri ≠ none ∧ c.require_subscriptions = false)
    · simp [ZmqPubControlClient.connectResultArchetype,
        ZmqPubControlClient.connect_zmq, hv, hB, hP, socketArchetype]
    · simp [ZmqPubControlClient.connectResultArchetype,
        ZmqPubControlClient.connect_zmq, hv, hB, hP, socketArchetype]

open ZmqPubControlClient in
/-- C1 witness at a concrete input: a push-only configuration passes
uri verification and resolves the Push archetype. -/
theorem C1_connect_selects_exactly_one_archetype_witness :
    ZmqPubControlClient._verify_uri_config
        ⟨"ctl", some "tcp://p", none, false, false⟩ = Except.ok () ∧
    (ZmqPubControlClient.connectResultArchetype
        ⟨"ctl", some "tcp://p", none, false, false⟩ =
        Except.ok Archetype.push ↔
      (¬((⟨"ctl", some "tcp://p", none, false, false⟩ : Config).zmq_pub_uri ≠
            none ∧
          (⟨"ctl", some "tcp://p", none, false, false⟩ : Config).disable_pub =
            false ∧
          ((⟨"ctl", some "tcp://p", none, false, false⟩ :
                Config).zmq_push_uri = none ∨
            (⟨"ctl", some "tcp://p", none, false,
                false⟩ : Config).require_subscriptions = true)) ∧
        (⟨"ctl", some "tcp://p", none, false, false⟩ : Config).zmq_push_uri ≠
          none ∧
        (⟨"ctl", some "tcp://p", none, false,
            false⟩ : Config).require_subscriptions = false)) :=
  ⟨rfl,
   (C1_connect_selects_exactly_one_archetype
     ⟨"ctl", some "tcp://p", none, false, false⟩ rfl).2.1⟩

open ZmqPubControlClient in
/-- C2: connect_zmq raises a configuration error whenever both uris are
unset, or require_subscriptions is set while pubUri is unset (even with
pushUri set), and it does so for every current socket handle, null or
not. -/
theorem C2_connect_validates_config (c : Config) (sock : Option Socket)
    (h : (c.zmq_push_uri = none ∧ c.zmq_pub_uri = none) ∨
      (c.require_subscriptions = true ∧ c.zmq_pub_uri = none)) :
    ZmqPubControlClient.raisesError (ZmqPubControlClient.connect_zmq c sock) =
      true := by
  rcases h with ⟨hpush, hpub⟩ | ⟨hreq, hpub⟩
  · simp [ZmqPubControlClient.connect_zmq,
      ZmqPubControlClient._verify_uri_config, ZmqPubControlClient.raisesError,
      hpush, hpub]
  · by_cases hpush : c.zmq_push_uri = none
    · simp [ZmqPubControlClient.connect_zmq,
        ZmqPubControlClient._verify_uri_config,
        ZmqPubControlClient.raisesError, hpush, hpub]
    · simp [ZmqPubControlClient.connect_zmq,
        ZmqPubControlClient._verify_uri_config,
        ZmqPubControlClient.raisesError, hpush, hpub, hreq]

open ZmqPubControlClient in
/-- C2 witness at a concrete input: require_subscriptions is set and
pubUri is unset while pushUri is set, and a socket handle already
exists; connect_zmq still raises. -/
theorem C2_connect_validates_config_witness :
    ((⟨"ctl", some "tcp://p", none, true, false⟩ : Config).require_subscriptions =
        true ∧
      (⟨"ctl", some "tcp://p", none, true, false⟩ : Config).zmq_pub_uri =
        none) ∧
    ZmqPubControlClient.raisesError
        (ZmqPubControlClient.connect_zmq
          ⟨"ctl", some "tcp://p", none, true, false⟩
          (some ⟨SocketType.push, "tcp://p"⟩)) = true :=
  ⟨⟨rfl, rfl⟩,
   C2_connect_validates_config ⟨"ctl", some "tcp://p", none, true, false⟩
     (some ⟨SocketType.push, "tcp://p"⟩) (Or.inr ⟨rfl, rfl⟩)⟩

open ZmqPubControlClient in
/-- C3: with pushUri set, pubUri set, disablePub true and
requireSubscriptions true, connect_zmq raises nothing and leaves the
handle null, and publish is a silent success no-op: no frame is sent
and a supplied callback is invoked with (true, ""); without a callback
nothing is invoked. -/
theorem C3_no_eligible_transport_noop (u pu bu : String)
    (export2 : Bool → Bool → ZmqPubControlClient.Envelope)
    (ensure_utf8 : String → Bytes)
    (dumps : ZmqPubControlClient.Envelope → Bytes) (channel : String) :
    ZmqPubControlClient.connect_zmq ⟨u, some pu, some bu, true, true⟩ none =
      Except.ok none ∧
    ZmqPubControlClient.publish export2 ensure_utf8 dumps
        ⟨u, some pu, some bu, true, true⟩ none channel true =
      Except.ok { sock := none, frames := [], callbacks := [(true, "")] } ∧
    ZmqPubControlClient.publish export2 ensure_utf8 dumps
        ⟨u, some pu, some bu, true, true⟩ none channel false =
      Except.ok { sock := none, frames := [], callbacks := [] } :=
  ⟨rfl, rfl, rfl⟩

open ZmqPubControlClient in
/-- C4: a publish that resolves a PUSH socket sends exactly one frame:
the serialization of the exported envelope after the channel field was
assigned the normalized channel, and looking the channel field up in
that envelope yields exactly the normalized channel. -/
theorem C4_push_sends_one_frame
    (export2 : Bool → Bool → ZmqPubControlClient.Envelope)
    (ensure_utf8 : String → Bytes)
    (dumps : ZmqPubControlClient.Envelope → Bytes) (c : Config) (s : Socket)
    (channel : String) (hasCallback : Bool)
    (out : ZmqPubControlClient.PublishOutcome)
    (hpush : s.socket_type = SocketType.push)
    (hok : ZmqPubControlClient.publish export2 ensure_utf8 dumps c (some s)
      channel hasCallback = Except.ok out) :
    out.frames =
      [dumps (ZmqPubControlClient.dictInsert "channel" (ensure_utf8 channel)
        (export2 true true))] ∧
    out.frames.length = 1 ∧
    ZmqPubControlClient.dictLookup "channel"
        (ZmqPubControlClient.dictInsert "channel" (ensure_utf8 channel)
          (export2 true true)) = some (ensure_utf8 channel) := by
  cases hv : ZmqPubControlClient._verify_uri_config c with
  | error e =>
    simp [ZmqPubControlClient.publish, ZmqPubControlClient.connect_zmq, hv]
      at hok
  | ok uu =>
    cases uu
    simp only [ZmqPubControlClient.publish, ZmqPubControlClient.connect_zmq,
      hv, ZmqPubControlClient._send_to_zmq, hpush, if_true,
      Except.ok.injEq] at hok
    subst hok
    exact ⟨rfl, rfl, dictLookup_dictInsert "channel" (ensure_utf8 channel)
      (export2 true true)⟩

open ZmqPubControlClient in
/-- C4 witness at a concrete input: a PUSH socket, concrete external
collaborators; publish returns one frame serializing the envelope with
the channel field added. -/
theorem C4_push_sends_one_frame_witness :
    (⟨SocketType.push, "tcp://p"⟩ : Socket).socket_type = SocketType.push ∧
    ZmqPubControlClient.publish (fun _ _ => [("body", [104, 105])])
        (fun _ => [99, 104]) (fun e => [e.length])
        ⟨"ctl", some "tcp://p", none, false, false⟩
        (some ⟨SocketType.push, "tcp://p"⟩) "ch" true =
      Except.ok ⟨some ⟨SocketType.push, "tcp://p"⟩, [[2]], [(true, "")]⟩ ∧
    (⟨some ⟨SocketType.push, "tcp://p"⟩, [[2]],
        [(true, "")]⟩ : ZmqPubControlClient.PublishOutcome).frames.length =
      1 :=
  ⟨rfl, rfl,
   (C4_push_sends_one_frame (fun _ _ => [("body", [104, 105])])
     (fun _ => [99, 104]) (fun e => [e.length])
     ⟨"ctl", some "tcp://p", none, false, false⟩
     ⟨SocketType.push, "tcp://p"⟩ "ch" true
     ⟨some ⟨SocketType.push, "tcp://p"⟩, [[2]], [(true, "")]⟩ rfl rfl).2.1⟩

open ZmqPubControlClient in
/-- C5: a publish that resolves an XPUB (broadcast) socket sends
exactly two frames: the first is exactly the normalized channel bytes,
the second the serialization of the exported envelope with no channel
field injected. -/
theorem C5_broadcast_sends_two_frames
    (export2 : Bool → Bool → ZmqPubControlClient.Envelope)
    (ensure_utf8 : String → Bytes)
    (dumps : ZmqPubControlClient.Envelope → Bytes) (c : Config) (s : Socket)
    (channel : String) (hasCallback : Bool)
    (out : ZmqPubControlClient.PublishOutcome)
    (hx : s.socket_type = SocketType.xpub)
    (hok : ZmqPubControlClient.publish export2 ensure_utf8 dumps c (some s)
      channel hasCallback = Except.ok out) :
    out.frames = [ensure_utf8 channel, dumps (export2 true true)] ∧
    out.frames.length = 2 ∧
    out.frames.head? = some (ensure_utf8 channel) := by
  cases hv : ZmqPubControlClient._verify_uri_config c with
  | error e =>
    simp [ZmqPubControlClient.publish, ZmqPubControlClient.connect_zmq, hv]
      at hok
  | ok uu =>
    cases uu
    simp only [ZmqPubControlClient.publish, ZmqPubControlClient.connect_zmq,
      hv, ZmqPubControlClient._send_to_zmq, hx, Except.ok.injEq] at hok
    subst hok
    simp

open ZmqPubControlClient in
/-- C5 witness at a concrete input: an XPUB socket, concrete external
collaborators; publish returns the channel frame then the envelope
frame. -/
theorem C5_broadcast_sends_two_frames_witness :
    (⟨SocketType.xpub, "tcp://b"⟩ : Socket).socket_type = SocketType.xpub ∧
    ZmqPubControlClient.publish (fun _ _ => [("body", [104, 105])])
        (fun _ => [99, 104]) (fun e => [e.length])
        ⟨"ctl", none, some "tcp://b", false, false⟩
        (some ⟨SocketType.xpub, "tcp://b"⟩) "ch" true =
      Except.ok
        ⟨some ⟨SocketType.xpub, "tcp://b"⟩, [[99, 104], [1]],
          [(true, "")]⟩ ∧
    (⟨some ⟨SocketType.xpub, "tcp://b"⟩, [[99, 104], [1]],
        [(true, "")]⟩ : ZmqPubControlClient.PublishOutcome).frames.length =
      2 :=
  ⟨rfl, rfl,
   (C5_broadcast_sends_two_frames (fun _ _ => [("body", [104, 105])])
     (fun _ => [99, 104]) (fun e => [e.length])
     ⟨"ctl", none, some "tcp://b", false, false⟩
     ⟨SocketType.xpub, "tcp://b"⟩ "ch" true
     ⟨some ⟨SocketType.xpub, "tcp://b"⟩, [[99, 104], [1]], [(true, "")]⟩
     rfl rfl).2.1⟩

open ZmqPubControlClient in
/-- C6: whenever the socket handle is already non-null, a connect_zmq
call that returns leaves the handle unchanged, whatever the current
configuration flags are. -/
theorem C6_connect_idempotent (c : Config) (s : Socket) (r : Option Socket)
    (hok : ZmqPubControlClient.connect_zmq c (some s) = Except.ok r) :
    r = some s := by
  cases hv : ZmqPubControlClient._verify_uri_config c with
  | error e =>
    simp [ZmqPubControlClient.connect_zmq, hv] at hok
  | ok uu =>
    cases uu
    simp [ZmqPubControlClient.connect_zmq, hv] at hok
    exact hok.symm

open ZmqPubControlClient in
/-- C6 witness at a concrete input: an existing PUSH socket survives a
connect_zmq call under a configuration that would now select the
broadcast archetype. -/
theorem C6_connect_idempotent_witness :
    ZmqPubControlClient.connect_zmq ⟨"ctl", none, some "tcp://b", false, false⟩
        (some ⟨SocketType.push, "tcp://p"⟩) =
      Except.ok (some ⟨SocketType.push, "tcp://p"⟩) ∧
    (some (⟨SocketType.push, "tcp://p"⟩ : Socket) =
      some ⟨SocketType.push, "tcp://p"⟩) :=
  ⟨rfl,
   C6_connect_idempotent ⟨"ctl", none, some "tcp://b", false, false⟩
     ⟨SocketType.push, "tcp://p"⟩ (some ⟨SocketType.push, "tcp://p"⟩) rfl⟩

end PyPubControl
